import Mathlib

/-!
Verification of the UpdLoader document-processing core against its
natural-language specification.

The Python sources are shallowly embedded: XML trees become an inductive
`Xml` type, `decimal.Decimal` values become `ℚ`, Python's `None`/string
truthiness is made explicit through `Option String` plus `pyTruthy`, and
fallible code returns `Except`/`Option`.  The parsers are embedded in the
namespace-free dialect: the source probes several namespace bindings and at
every later lookup falls back to the unqualified tag, so for documents
whose tags carry no namespace every lookup reduces to the unqualified
search that is modelled here.
-/

/-- Python truthiness of an optional string: `None` and `""` are falsy. -/
def pyTruthy : Option String → Bool
  | none => false
  | some s => s ≠ ""

/-- Python `a or b` for an optional string `a` and a string default `b`. -/
def pyOr (a : Option String) (b : String) : String :=
  match a with
  | none => b
  | some s => if s = "" then b else s

/-- Python `a or None`: collapses an empty string to `None`. -/
def pyOrNone (a : Option String) : Option String :=
  match a with
  | none => none
  | some s => if s = "" then none else some s

/-- Value of a list of decimal digit characters (most significant first). -/
def digitsVal (l : List Char) : Nat :=
  l.foldl (fun n c => 10 * n + (c.toNat - 48)) 0

/-- Unsigned part of a Python `Decimal` literal: digits with at most one
decimal point, at least one digit overall (`"1."`, `".5"`, `"7"`).
Exponent forms are not modelled; the repository only feeds plain
fixed-point numerals to `Decimal`. -/
def parseDecimalUnsigned (l : List Char) : Option ℚ :=
  match l.dropWhile (· ≠ '.') with
  | [] =>
      if l.all Char.isDigit ∧ l ≠ [] then some ((digitsVal l : ℚ)) else none
  | _ :: fp =>
      let ip := l.takeWhile (· ≠ '.')
      if ip.all Char.isDigit ∧ fp.all Char.isDigit ∧ (ip ≠ [] ∨ fp ≠ []) then
        some ((digitsVal ip : ℚ) + (digitsVal fp : ℚ) / ((10 : ℚ) ^ fp.length))
      else none

/-- Python `Decimal(s)` on the literals the repository produces; `none`
models the `InvalidOperation` exception. -/
def parseDecimal (s : String) : Option ℚ :=
  match s.toList with
  | [] => none
  | c :: rest =>
    if c = '-' then (parseDecimalUnsigned rest).map (fun q => -q)
    else if c = '+' then parseDecimalUnsigned rest
    else parseDecimalUnsigned (c :: rest)

/-- Lower-casing that covers ASCII and the Russian alphabet, mirroring
`str.lower()` on the alphabets the sources use. -/
def ruToLower (c : Char) : Char :=
  if 'A' ≤ c ∧ c ≤ 'Z' then Char.ofNat (c.toNat + 32)
  else if 'А' ≤ c ∧ c ≤ 'Я' then Char.ofNat (c.toNat + 32)
  else if c = 'Ё' then 'ё'
  else c

/-- `str.lower()` over the modelled alphabets. -/
def strLower (s : String) : String :=
  String.mk (s.toList.map ruToLower)

/-- Whether `p` occurs at the start of `l`. -/
def charsStartWith : List Char → List Char → Bool
  | [], _ => true
  | _ :: _, [] => false
  | a :: as, b :: bs => a == b && charsStartWith as bs

/-- Whether `p` occurs somewhere inside `l` (Python `p in l`). -/
def charsContain (p : List Char) : List Char → Bool
  | [] => charsStartWith p []
  | b :: bs => charsStartWith p (b :: bs) || charsContain p bs

/-- Python substring test `pat in s`. -/
def strContains (s pat : String) : Bool :=
  charsContain pat.toList s.toList

/-- First maximal run of decimal digits in a string: models
`re.findall(r'\d+', s)[0]` (`none` when the string holds no digit). -/
def firstDigitRun (s : String) : Option String :=
  let rec go : List Char → Option String
    | [] => none
    | c :: rest =>
      if c.isDigit then
        some (String.mk ((c :: rest).takeWhile Char.isDigit))
      else go rest
  go s.toList

/-- Python `str.strip()` over the modelled whitespace. -/
def pyStrip (s : String) : String :=
  String.mk (((s.toList.dropWhile Char.isWhitespace).reverse.dropWhile
    Char.isWhitespace).reverse)

/-- `s.endswith(suffix)`. -/
def strEndsWith (s suffix : String) : Bool :=
  charsStartWith suffix.toList.reverse s.toList.reverse

/-- XML element: tag, attributes, text, children.  `text` is `none` when
`ElementTree` reports no text node at all. -/
inductive Xml where
  | elem (tag : String) (attrs : List (String × String)) (text : Option String)
      (children : List Xml)

/-- Tag of an element. -/
def Xml.tag : Xml → String
  | .elem t _ _ _ => t

/-- Attribute list of an element. -/
def Xml.attrs : Xml → List (String × String)
  | .elem _ a _ _ => a

/-- Text of an element. -/
def Xml.text : Xml → Option String
  | .elem _ _ t _ => t

/-- Children of an element. -/
def Xml.children : Xml → List Xml
  | .elem _ _ _ c => c

/-- `element.get(name)`: attribute lookup. -/
def Xml.get (e : Xml) (name : String) : Option String :=
  (e.attrs.find? (fun p => p.1 = name)).map Prod.snd

mutual
/-- All proper descendants of an element in document (pre-)order:
the candidate set of `element.find(".//tag")`. -/
def Xml.descendants : Xml → List Xml
  | .elem _ _ _ cs => Xml.descList cs

/-- Descendants of a forest, in document order, each root included. -/
def Xml.descList : List Xml → List Xml
  | [] => []
  | x :: xs => x :: (Xml.descendants x ++ Xml.descList xs)
end

/-- `element.find(tag)`: first direct child with the given tag. -/
def Xml.findChild (e : Xml) (tag : String) : Option Xml :=
  e.children.find? (fun c => c.tag = tag)

/-- `element.findall(tag)`: all direct children with the given tag. -/
def Xml.findAllChildren (e : Xml) (tag : String) : List Xml :=
  e.children.filter (fun c => c.tag = tag)

/-- `element.find(".//tag")`: first descendant with the given tag. -/
def Xml.findDesc (e : Xml) (tag : String) : Option Xml :=
  e.descendants.find? (fun c => c.tag = tag)

/-- `element.findall(".//tag")`: all descendants with the given tag. -/
def Xml.findAllDesc (e : Xml) (tag : String) : List Xml :=
  e.descendants.filter (fun c => c.tag = tag)

/-- `element.find(".//a/b")`: first `b` child of a descendant tagged `a`. -/
def Xml.findDescPath2 (e : Xml) (a b : String) : Option Xml :=
  (e.findAllDesc a).findSome? (fun x => x.findChild b)

/-- `element.find(".//a/b/c")`. -/
def Xml.findDescPath3 (e : Xml) (a b c : String) : Option Xml :=
  (e.findAllDesc a).findSome? (fun x =>
    (x.findAllChildren b).findSome? (fun y => y.findChild c))

/-- `element.iter()`: the element itself followed by its descendants. -/
def Xml.iterAll (e : Xml) : List Xml :=
  e :: e.descendants

/-- Python `x or y` on two optional lookups (used for the pervasive
"qualified find, else unqualified find" pattern). -/
def optOr {α : Type} (a b : Option α) : Option α :=
  match a with
  | some x => some x
  | none => b

example : parseDecimal "3000.00" = some 3000 := by
  simp [parseDecimal, parseDecimalUnsigned, digitsVal]
example : parseDecimal "12.5" = some (25 / 2) := by
  simp [parseDecimal, parseDecimalUnsigned, digitsVal]
  norm_num
example : parseDecimal "" = none := by decide
example : parseDecimal "1a" = none := by decide
example : firstDigitRun "счет №239" = some "239" := by decide
example : strContains "труба проф" "труб" = true := by decide
example : strLower "ТрубА" = "труба" := by decide

/-! ## Data model (`src/models.py`) -/

/-- `Organization` from `models.py` (address never matters to the claims). -/
structure Organization where
  name : String
  inn : String
  kpp : Option String := none
deriving Repr, DecidableEq

/-- `InvoiceItem` from `models.py`.  `name` and `vat_rate` are optional
because the commerce-schema table tier can store Python `None` there. -/
structure InvoiceItem where
  line_number : Nat
  name : Option String
  quantity : ℚ
  price : ℚ
  amount_without_vat : ℚ
  vat_rate : Option String
  vat_amount : ℚ
  amount_with_vat : ℚ
  article : Option String
deriving Repr, DecidableEq

/-- Provenance of the parsed invoice date: which `strptime` format
succeeded, or the `datetime.now()` fallback. -/
inductive UPDDate where
  | parsedDMY (s : String)
  | parsedYMD (s : String)
  | now
deriving Repr, DecidableEq

/-- `UPDContent` from `models.py` (dates carried as provenance). -/
structure UPDContentL where
  invoice_number : String
  invoice_date : UPDDate
  seller : Organization
  buyer : Organization
  items : List InvoiceItem
  currency_code : String := "643"
  total_without_vat : ℚ
  total_vat : ℚ
  total_with_vat : ℚ
  requisite_number : Option String
deriving Repr, DecidableEq

/-- `_create_basic_upd_content`: the sentinel document returned when the
body is empty or any body-level parse step throws. -/
def basicUpdContent : UPDContentL :=
  { invoice_number := "Не указан"
    invoice_date := .now
    currency_code := "643"
    seller := { name := "Не указано", inn := "0000000000" }
    buyer := { name := "Не указано", inn := "0000000000" }
    items := []
    total_without_vat := 0
    total_vat := 0
    total_with_vat := 0
    requisite_number := none }

/-! ## `strptime` date validation (only validity matters to the model) -/

def isLeapYear (y : Nat) : Bool := (y % 4 = 0 && y % 100 ≠ 0) || y % 400 = 0

def daysInMonth (y m : Nat) : Nat :=
  if m = 2 then (if isLeapYear y then 29 else 28)
  else if m = 4 || m = 6 || m = 9 || m = 11 then 30 else 31

def allDigits1 (s : String) : Bool := s.toList.all Char.isDigit && s.toList ≠ []

def natOfDigits (s : String) : Nat := digitsVal s.toList

/-- Whether the day/month/year groups form a real calendar date
(`strptime` rejects out-of-range components). -/
def validYMDGroups (y m d : String) : Bool :=
  allDigits1 d && allDigits1 m && allDigits1 y &&
  d.length ≤ 2 && m.length ≤ 2 && y.length = 4 &&
  1 ≤ natOfDigits y &&
  1 ≤ natOfDigits m && natOfDigits m ≤ 12 &&
  1 ≤ natOfDigits d && natOfDigits d ≤ daysInMonth (natOfDigits y) (natOfDigits m)

/-- `datetime.strptime(s, "%d.%m.%Y")` succeeds. -/
def validDMY (s : String) : Bool :=
  match s.split (· = '.') with
  | [d, m, y] => validYMDGroups y m d
  | _ => false

/-- `datetime.strptime(s, "%Y-%m-%d")` succeeds. -/
def validYMD (s : String) : Bool :=
  match s.split (· = '-') with
  | [y, m, d] => validYMDGroups y m d
  | _ => false

/-! ## Transfer-schema parser (`src/upd_parser.py`)

Embedded in the namespace-free dialect: after namespace probing every
lookup in the source is "qualified find, else unqualified find", which for
documents without namespace-qualified tags reduces to the plain search
used here. -/

/-- `element.get(a) or dflt`. -/
def pyAttrOr (e : Xml) (a dflt : String) : String := pyOr (e.get a) dflt

/-- Python `a or b` on two `ElementTree` elements: an element with no
children is falsy, so `a or b` skips a childless `a`. -/
def etOr (a b : Option Xml) : Option Xml :=
  match a with
  | some e => if e.children.isEmpty then b else some e
  | none => b

/-- Legal-entity branch shared verbatim by `_parse_seller_info` and
`_parse_buyer_info`: attributes of `СвЮЛУч` first, child-element fallback,
succeeding only when the tax id is truthy. -/
def legalEntityResult (legal : Xml) : Option Organization :=
  let name0 := pyOr (legal.get "НаимОрг") "Не указано"
  let inn0 := pyOrNone (legal.get "ИННЮЛ")
  let kpp0 := legal.get "КПП"
  let fb := name0 = "Не указано" ∨ inn0 = none
  let name := if fb ∧ name0 = "Не указано" then
      match legal.findChild "НаимОрг" with
      | some e => pyOr e.text "Не указано"
      | none => name0
    else name0
  let inn := if fb ∧ inn0 = none then (legal.findChild "ИННЮЛ").bind Xml.text else inn0
  let kpp := if fb ∧ kpp0 = none then (legal.findChild "КПП").bind Xml.text else kpp0
  match inn with
  | some i => if i ≠ "" then some { name := name, inn := i, kpp := kpp } else none
  | none => none

/-- Sole-proprietor branch shared verbatim by seller/buyer parsing:
`ИННФЛ` attribute plus a full name assembled from `ФИО` attributes. -/
def ipEntityResult (ip : Xml) : Option Organization :=
  let inn_fl := ip.get "ИННФЛ"
  let name := match ip.findChild "ФИО" with
    | some fio =>
        let parts := [pyOr (fio.get "Фамилия") "", pyOr (fio.get "Имя") "",
                      pyOr (fio.get "Отчество") ""]
        let joined := " ".intercalate (parts.filter (· ≠ ""))
        if joined = "" then "Не указано" else joined
    | none => "Не указано"
  match inn_fl with
  | some i => if i ≠ "" then some { name := name, inn := i, kpp := none } else none
  | none => none

/-- Organization resolution from a party element: legal entity first
(descendant `ИдСв/СвЮЛУч`, else direct `СвЮЛУч`), falling through to the
sole proprietor when no usable legal-entity tax id was found. -/
def resolveOrgFrom (elem : Xml) : Option Organization :=
  let legal := optOr (elem.findDescPath2 "ИдСв" "СвЮЛУч") (elem.findDesc "СвЮЛУч")
  match legal.bind legalEntityResult with
  | some org => some org
  | none =>
      let ip := optOr (elem.findDescPath2 "ИдСв" "СвИП") (elem.findDesc "СвИП")
      ip.bind ipEntityResult

/-- `_parse_seller_info`: `.error` models the raised `UPDParsingError`. -/
def parse_seller_info (tree : Xml) : Except String Organization :=
  match tree.findDesc "СвПрод" with
  | none => .error "Не удалось определить продавца в УПД документе"
  | some se =>
      match resolveOrgFrom se with
      | some org => .ok org
      | none =>
          .error "Не удалось определить ИНН продавца в УПД документе. Проверьте корректность документа."

/-- `_parse_buyer_info` (identical body over `ГрузПолуч`/`СвПокуп`). -/
def parse_buyer_info (tree : Xml) : Except String Organization :=
  match optOr (tree.findDesc "ГрузПолуч") (tree.findDesc "СвПокуп") with
  | none => .error "Не удалось определить покупателя в УПД документе"
  | some be =>
      match resolveOrgFrom be with
      | some org => .ok org
      | none =>
          .error "Не удалось определить ИНН покупателя в УПД документе. Проверьте корректность документа."

/-- Date resolution from the `ДатаДок` attribute of `СвСчФакт`:
`%d.%m.%Y` first, then `%Y-%m-%d`, else `datetime.now()`. -/
def dateFromString (ds : String) : UPDDate :=
  if validDMY ds then .parsedDMY ds
  else if validYMD ds then .parsedYMD ds
  else .now

/-- The `invoice_number == "Не указан"` rescue scan over `tree.iter()`:
first element whose tag contains `номер`/`number` (case-folded) and whose
text is truthy. -/
def scanNumber (tree : Xml) (current : String) : String :=
  if current = "Не указан" then
    match tree.iterAll.find? (fun e =>
        (strContains (strLower e.tag) "номер" || strContains (strLower e.tag) "number")
        && pyTruthy e.text) with
    | some e => match e.text with
        | some s => s
        | none => current
    | none => current
  else current

/-- `РеквНомерДок` handling: first run of digits, else the stripped raw
value; absent/empty attribute leaves the requisite number unset. -/
def requisiteFromOsn (o : Xml) : Option String :=
  match o.get "РеквНомерДок" with
  | some rd =>
      if rd ≠ "" then
        match firstDigitRun rd with
        | some n => some n
        | none => some (pyStrip rd)
      else none
  | none => none

/-- Header part of `_parse_full_upd_content` (everything before the
seller parse): invoice number, date and requisite number.  The `.error`
case models the `AttributeError` raised at the `invoice_info.find`
fallback when both `СвСчФакт` and `ОснПер` are missing; it is caught by
the enclosing handler. -/
def parse_header (tree : Xml) : Except String (String × UPDDate × Option String) :=
  let invoice_info := tree.findDesc "СвСчФакт"
  let invoice_number := match invoice_info with
    | some info => pyOr (info.get "НомерДок") "Не указан"
    | none => "Не указан"
  let date_str : Option String := match invoice_info with
    | some info => info.get "ДатаДок"
    | none => none
  let invoice_date := match date_str with
    | some ds => if ds ≠ "" then dateFromString ds else .now
    | none => .now
  let osn := optOr (tree.findDescPath3 "СвПродПер" "СвПер" "ОснПер") (tree.findDesc "ОснПер")
  match osn with
  | some o =>
      .ok (scanNumber tree invoice_number, invoice_date, requisiteFromOsn o)
  | none =>
      match invoice_info with
      | none =>
          -- `invoice_number` is still "Не указан", so the code dereferences
          -- `invoice_info.find(...)` on `None`.
          .error "'NoneType' object has no attribute 'find'"
      | some info =>
          let invoice_number :=
            if invoice_number = "Не указан" then
              match etOr (info.findChild "НомерСчФ") (info.findChild "НомерДок") with
              | some ne => pyOr ne.text "Не указан"
              | none => invoice_number
            else invoice_number
          let invoice_date :=
            if date_str = none then
              match etOr (info.findChild "ДатаСчФ") (info.findChild "ДатаДок") with
              | some de => (match de.text with
                  | some t => dateFromString t
                  | none => .now)
              | none => invoice_date
            else invoice_date
          .ok (scanNumber tree invoice_number, invoice_date, none)

/-- One `СведТов` row of `_parse_invoice_items`.  `none` models the
per-row exception handler (`except: continue`).  The tax-inclusive total
`СтТовУчНал` is stored both as `amount_with_vat` and — deliberately in the
source — as `amount_without_vat` (`main_amount`). -/
def parse_invoice_row (i : Nat) (e : Xml) : Option InvoiceItem :=
  let name := pyAttrOr e "НаимТов" ("Товар " ++ toString i)
  let quantity_str := pyAttrOr e "КолТов" "1"
  let price_str := pyAttrOr e "ЦенаТов" "0"
  let amount_str := pyAttrOr e "СтТовБезНДС" "0"
  let vat_rate := pyAttrOr e "НалСт" "20%"
  let total_str := pyAttrOr e "СтТовУчНал" "0"
  let article := (e.findChild "ДопСведТов").bind (fun d => d.get "КодТов")
  let vatAmount? : Option ℚ :=
    match e.findDescPath2 "СумНал" "СумНал" with
    | some v => parseDecimal (pyOr v.text "0")
    | none => some 0
  match vatAmount?, parseDecimal quantity_str, parseDecimal price_str,
        parseDecimal amount_str, parseDecimal total_str with
  | some v, some q, some p, some _, some t =>
      some { line_number := i, name := some name, quantity := q, price := p,
             amount_without_vat := t, vat_rate := some vat_rate,
             vat_amount := v, amount_with_vat := t, article := article }
  | _, _, _, _, _ => none

/-- `_parse_invoice_items`: the `СведТов` children of `ТаблСчФакт`,
enumerated from 1, rows that raise are skipped. -/
def parse_invoice_items (tree : Xml) : List InvoiceItem :=
  match tree.findDesc "ТаблСчФакт" with
  | none => []
  | some table =>
      (List.enumFrom 1 (table.findAllChildren "СведТов")).filterMap
        (fun p => parse_invoice_row p.1 p.2)

/-- `_parse_totals`: its lookup is namespace-qualified *without* an
unqualified fallback, so in the modelled dialect it never finds `ВсегоОпл`
(and with an empty namespace map the lookup raises and is caught); either
way the zero defaults are returned. -/
def parse_totals (_tree : Xml) : ℚ × ℚ × ℚ := (0, 0, 0)

/-- Body of `_parse_full_upd_content` inside its `try`: any `.error`
is caught by the enclosing handler. -/
def parse_full_upd_content_inner (tree : Xml) : Except String UPDContentL :=
  match parse_header tree with
  | .error e => .error e
  | .ok (num, date, req) =>
      match parse_seller_info tree with
      | .error e => .error e
      | .ok seller =>
          match parse_buyer_info tree with
          | .error e => .error e
          | .ok buyer =>
              let items := parse_invoice_items tree
              let (twov, tv, twv) := parse_totals tree
              .ok { invoice_number := num, invoice_date := date, seller := seller,
                    buyer := buyer, items := items, total_without_vat := twov,
                    total_vat := tv, total_with_vat := twv, requisite_number := req }

/-- `_parse_full_upd_content`: every exception from the body is caught
and replaced by the sentinel document. -/
def parse_full_upd_content (tree : Xml) : UPDContentL :=
  match parse_full_upd_content_inner tree with
  | .ok c => c
  | .error _ => basicUpdContent

/-! ## XML text helpers (`src/utils/xml_utils.py`, `src/parsers/base_parser.py`) -/

/-- `safe_get_text` from `xml_utils.py`:
`element.text.strip() if element is not None and element.text else None`.
Note: a whitespace-only text is truthy, so it strips to `""` (not `None`). -/
def safe_get_text (e? : Option Xml) : Option String :=
  match e? with
  | some e =>
      match e.text with
      | some t => if t = "" then none else some (pyStrip t)
      | none => none
  | none => none

/-- `BaseDocumentParser._get_text` — same body as `safe_get_text`. -/
def bp_get_text (e? : Option Xml) : Option String :=
  match e? with
  | some e =>
      match e.text with
      | some t => if t = "" then none else some (pyStrip t)
      | none => none
  | none => none

/-! ## Commerce-schema parser (`src/customer_invoice_parser.py`) -/

/-- `Decimal(s) if s else Decimal(d)` over an `_get_text` result. -/
def decOrDefault (s : Option String) (d : ℚ) : Option ℚ :=
  match s with
  | some t => if t ≠ "" then parseDecimal t else some d
  | none => some d

/-- Python dict assignment (later assignment wins on lookup). -/
def dictInsert {V : Type} (m : List (String × V)) (k : String) (v : V) :
    List (String × V) :=
  (k, v) :: m.filter (fun p => p.1 ≠ k)

/-- The `Для1С_Идентификатор` requisite scan of `_parse_items`: the first
matching requisite's value with the `##` wrapper stripped. -/
def productIdFromRequisites (product : Xml) : Option String :=
  match product.findChild "ЗначенияРеквизитов" with
  | some reqs =>
      match (reqs.findAllChildren "ЗначениеРеквизита").find? (fun r =>
          bp_get_text (r.findChild "Наименование") = some "Для1С_Идентификатор") with
      | some r =>
          match bp_get_text (r.findChild "Значение") with
          | some v => if v = "" then none else some (v.replace "##" "")
          | none => none
      | none => none
  | none => none

/-- The product dictionary of `_parse_items`: id (requisite id, else the
product name) mapped to name and article. -/
def buildProductsDict (productElems : List Xml) :
    List (String × (Option String × Option String)) :=
  productElems.foldl (fun m p =>
    let pname := bp_get_text (p.findChild "Наименование")
    let particle := bp_get_text (p.findChild "Артикул")
    let pid0 := productIdFromRequisites p
    let pid := if pyTruthy pid0 then pid0 else pname
    if pyTruthy pid then dictInsert m (pid.getD "") (pname, particle) else m) []

/-- One `СтрокаТабличнойЧасти` row of `_parse_items` (tier a).  `none`
models an uncaught `Decimal` exception, which aborts the whole parse. -/
def parseCommerceRow (products : List (String × (Option String × Option String)))
    (i : Nat) (row : Xml) : Option InvoiceItem :=
  let product_id := bp_get_text (row.findChild "Товар")
  let quantity_str := bp_get_text (row.findChild "Количество")
  let price_str := bp_get_text (row.findChild "Цена")
  let sum_str := bp_get_text (row.findChild "Сумма")
  let vat_rate_str := bp_get_text (row.findChild "СтавкаНДС")
  let vat_sum_str := bp_get_text (row.findChild "СуммаНДС")
  let total_str := bp_get_text (row.findChild "Всего")
  let product_info := product_id.bind (fun k => List.lookup k products)
  let product_name : Option String := match product_info with
    | some (n, _) => n
    | none => some ("Товар " ++ toString i)
  let product_article : Option String := match product_info with
    | some (_, a) => a
    | none => none
  match decOrDefault quantity_str 1, decOrDefault price_str 0,
        decOrDefault sum_str 0, decOrDefault vat_sum_str 0 with
  | some q, some p, some a, some v =>
      let awv? := match total_str with
        | some t => if t ≠ "" then parseDecimal t else some (a + v)
        | none => some (a + v)
      match awv? with
      | some awv =>
          some { line_number := i, name := product_name, quantity := q, price := p,
                 amount_without_vat := a, vat_rate := vat_rate_str, vat_amount := v,
                 amount_with_vat := awv, article := product_article }
      | none => none
  | _, _, _, _ => none

/-- One direct `Товар` element of `_parse_items` (tier b): pricing read
from the product itself, tax defaults `20%`/0, the pre-tax amount
back-computed when a positive tax amount is known. -/
def parseCommerceProduct (i : Nat) (p : Xml) : Option InvoiceItem :=
  let product_name := bp_get_text (p.findChild "Наименование")
  let product_article := bp_get_text (p.findChild "Артикул")
  let price_str := bp_get_text (p.findChild "ЦенаЗаЕдиницу")
  let quantity_str := bp_get_text (p.findChild "Количество")
  let sum_str := bp_get_text (p.findChild "Сумма")
  let tax? : Option Xml := (p.findChild "Налоги").bind (fun t => t.findChild "Налог")
  let vat_rate_str := match tax? with
    | some tax =>
        (match (tax.findChild "Ставка").bind Xml.text with
         | some t => if t ≠ "" then t ++ "%" else "20%"
         | none => "20%")
    | none => "20%"
  let vat_amount? : Option ℚ := match tax? with
    | some tax =>
        (match (tax.findChild "Сумма").bind Xml.text with
         | some t => if t ≠ "" then parseDecimal t else some 0
         | none => some 0)
    | none => some 0
  match vat_amount?, decOrDefault quantity_str 1, decOrDefault price_str 0,
        decOrDefault sum_str 0 with
  | some v, some q, some pr, some a0 =>
      let a := if v > 0 then a0 - v else a0
      some { line_number := i, name := some (pyOr product_name ("Товар " ++ toString i)),
             quantity := q, price := pr, amount_without_vat := a,
             vat_rate := some vat_rate_str, vat_amount := v,
             amount_with_vat := a + v, article := product_article }
  | _, _, _, _ => none

/-- `CustomerInvoiceParser._parse_items`: tabular rows first; when that
yields nothing and product elements exist, items are synthesized from the
product elements directly.  `total_sum` is received but never used — there
is no even-split tier in the source.  `none` models an uncaught exception. -/
def ci_parse_items (doc : Xml) (tree : Xml) (_total_sum : ℚ) :
    Option (List InvoiceItem) :=
  let product_elements := tree.findAllDesc "Товар"
  let itemsFromTable : Option (List InvoiceItem) :=
    match doc.findChild "ТабличнаяЧасть" with
    | some tp =>
        let rows := tp.findAllChildren "СтрокаТабличнойЧасти"
        let products := buildProductsDict product_elements
        (List.enumFrom 1 rows).mapM (fun pr => parseCommerceRow products pr.1 pr.2)
    | none => some []
  match itemsFromTable with
  | none => none
  | some items =>
      if items.isEmpty && !product_elements.isEmpty then
        (List.enumFrom 1 product_elements).mapM (fun pr => parseCommerceProduct pr.1 pr.2)
      else some items

/-! ## External-service mapping layer (`src/moysklad_api.py`)

Network lookups are passed in as functions/values; monetary conversions
through CPython floats (`int(float(x) * 100)`) are abstracted as already
computed integer arguments. -/

/-- A product/service reference returned by the external service:
its meta pointer plus the group name that
`_get_product_group_name` would report for it. -/
structure MSProduct where
  meta : String
  name : String
  groupName : Option String := none
deriving Repr, DecidableEq

/-- A created position of `_create_positions_from_upd`. -/
structure MSPosition where
  quantity : ℚ
  price : Int
  assortmentMeta : String
  vat : Nat
deriving Repr, DecidableEq

/-- `_get_vat_rate`: first digit run of the tag, default 18. -/
def get_vat_rate (vat_rate_str : Option String) : Nat :=
  match vat_rate_str with
  | none => 18
  | some s =>
      if s = "" then 18
      else match firstDigitRun s with
        | some d => natOfDigits d
        | none => 18

/-- Name-key branch of the per-item price decision. -/
def positionPriceByName (name : String) (updPriceKopecks : Int)
    (invoicePositions : List (String × Int)) : Int :=
  match List.lookup ("name:" ++ name) invoicePositions with
  | some p => if p > 0 then p else updPriceKopecks
  | none => updPriceKopecks

/-- Per-item price decision of `_create_positions_from_upd`: the stored
invoice price keyed by article, else by name, is preferred when strictly
positive; otherwise the price parsed from the transfer document
(already converted to kopecks). -/
def positionPriceKopecks (article : Option String) (name : String)
    (updPriceKopecks : Int) (invoicePositions : List (String × Int)) : Int :=
  match article with
  | some a =>
      if a ≠ "" then
        match List.lookup ("article:" ++ a) invoicePositions with
        | some p => if p > 0 then p else updPriceKopecks
        | none => positionPriceByName name updPriceKopecks invoicePositions
      else positionPriceByName name updPriceKopecks invoicePositions
  | none => positionPriceByName name updPriceKopecks invoicePositions

/-- Spec-side formulation for the price preference: the stored price for
an item, looked up by article first, then by name. -/
def storedInvoicePrice (article : Option String) (name : String)
    (invoicePositions : List (String × Int)) : Option Int :=
  match article with
  | some a =>
      if a ≠ "" then
        match List.lookup ("article:" ++ a) invoicePositions with
        | some p => some p
        | none => List.lookup ("name:" ++ name) invoicePositions
      else List.lookup ("name:" ++ name) invoicePositions
  | none => List.lookup ("name:" ++ name) invoicePositions

/-- Product resolution for one item: by article when truthy, else by name. -/
def resolveProduct (findByArticle findByName : String → Option MSProduct)
    (item : InvoiceItem) : Option MSProduct :=
  let product := match item.article with
    | some a => if a ≠ "" then findByArticle a else none
    | none => none
  match product with
  | some p => some p
  | none => findByName (item.name.getD "None")

/-- Loop body of `_create_positions_from_upd`: a resolved item appends
its position (with the reconciled price), an unresolved one appends a
missing-product line. -/
def createPositionsStep (findByArticle findByName : String → Option MSProduct)
    (invoicePositions : List (String × Int))
    (updPriceKopecksOf : InvoiceItem → Int)
    (acc : List MSPosition × List String) (item : InvoiceItem) :
    List MSPosition × List String :=
  let (positions, missing) := acc
  match resolveProduct findByArticle findByName item with
  | some p =>
      let price := positionPriceKopecks item.article (item.name.getD "None")
        (updPriceKopecksOf item) invoicePositions
      (positions ++ [{ quantity := item.quantity, price := price,
                       assortmentMeta := p.meta,
                       vat := get_vat_rate item.vat_rate }], missing)
  | none =>
      (positions, missing ++ [item.name.getD "None" ++ " (артикул: " ++
        pyOr item.article "не указан" ++ ")"])

/-- `_create_positions_from_upd`: resolve each item (article first, then
name), build its position with the reconciled price, collect unresolved
items; a non-empty missing list is a fatal consolidated error; an empty
position list falls back to a single position on the first available
service. `updPriceKopecksOf item` stands for `int(float(item.price)*100)`
and `totalKopecks` for `int(float(content.total_with_vat)*100)`. -/
def createPositionsFromUpd (items : List InvoiceItem)
    (findByArticle findByName : String → Option MSProduct)
    (invoicePositions : List (String × Int))
    (updPriceKopecksOf : InvoiceItem → Int)
    (totalWithVat : ℚ) (totalKopecks : Int)
    (anyService : Option String) : Except String (List MSPosition) :=
  let step := items.foldl
    (createPositionsStep findByArticle findByName invoicePositions updPriceKopecksOf)
    ([], [])
  let (positions, missing) := step
  if !missing.isEmpty then
    .error ("В МойСклад не найдены следующие товары из УПД:\n• " ++
      "\n".intercalate missing ++
      "\n\nСоздайте эти товары в МойСклад вручную и повторите загрузку УПД.")
  else if positions.isEmpty then
    let total_price_kopecks : Int := if totalWithVat > 0 then totalKopecks else 100000
    match anyService with
    | none =>
        .error ("В МойСклад нет доступных услуг для создания позиции документа.\n" ++
          "Создайте хотя бы одну услугу в МойСклад и повторите попытку.")
    | some meta =>
        .ok [{ quantity := 1, price := total_price_kopecks,
               assortmentMeta := meta, vat := 18 }]
  else .ok positions

/-- The position built for a resolved item: reconciled price, the item's
quantity, the product's meta and the parsed VAT tag. -/
def positionOfResolvedItem (invoicePositions : List (String × Int))
    (updPriceKopecksOf : InvoiceItem → Int) (item : InvoiceItem)
    (p : MSProduct) : MSPosition :=
  { quantity := item.quantity,
    price := positionPriceKopecks item.article (item.name.getD "None")
      (updPriceKopecksOf item) invoicePositions,
    assortmentMeta := p.meta, vat := get_vat_rate item.vat_rate }

/-- The optional position an item contributes when its product resolves. -/
def resolvedPosition (findByArticle findByName : String → Option MSProduct)
    (invoicePositions : List (String × Int))
    (updPriceKopecksOf : InvoiceItem → Int) (item : InvoiceItem) :
    Option MSPosition :=
  (resolveProduct findByArticle findByName item).map
    (positionOfResolvedItem invoicePositions updPriceKopecksOf item)

/-- Data returned by the best-effort `_lookup_counterparty_by_inn`
(`none` models the empty dict returned on any failure). -/
structure EnhancedData where
  name : String
  kpp : String
  legalAddress : String
  actualAddress : String
deriving Repr, DecidableEq

/-- The request body built by the creation branch of
`_get_or_create_counterparty`. -/
structure CounterpartyData where
  name : String
  inn : String
  companyType : String
  kpp : Option String
  legalAddress : Option String
  actualAddress : Option String
deriving Repr, DecidableEq

/-- Creation branch of `_get_or_create_counterparty`: classification by
tax-id length (12 ⇒ sole proprietor), `kpp` only for non-individuals
(own value first, then the enrichment lookup's), optional addresses. -/
def counterpartyCreateData (buyer : Organization) (enhanced : Option EnhancedData) :
    CounterpartyData :=
  let is_individual := buyer.inn.length = 12
  let name := match enhanced with
    | some e => e.name
    | none => buyer.name
  let enhancedKppTruthy : Bool := match enhanced with
    | some e => e.kpp ≠ ""
    | none => false
  let kpp : Option String :=
    if pyTruthy buyer.kpp ∧ ¬ is_individual then buyer.kpp
    else if enhancedKppTruthy ∧ ¬ is_individual then enhanced.map (fun e => e.kpp)
    else none
  let legalAddress : Option String := match enhanced with
    | some e => if e.legalAddress ≠ "" then some e.legalAddress else none
    | none => none
  let actualAddress : Option String := match enhanced with
    | some e => if e.actualAddress ≠ "" then some e.actualAddress else none
    | none => none
  { name := name, inn := buyer.inn,
    companyType := if is_individual then "individual" else "legal",
    kpp := kpp, legalAddress := legalAddress, actualAddress := actualAddress }

/-- Fallback tally on the raw item name shared by the group-based
classification of `_determine_main_warehouse_for_order` /
`_determine_main_project_for_order`.  `.error` models the
`AttributeError` that `item.name.lower()` raises when the item's name is
Python `None` (producible by the commerce table tier). -/
def nameTally (n : Option String) (acc : Nat × Nat) : Except String (Nat × Nat) :=
  match n with
  | none => .error "'NoneType' object has no attribute 'lower'"
  | some s =>
      let (profile_count, tube_count) := acc
      if strContains (strLower s) "профиль" then .ok (profile_count + 1, tube_count)
      else if strContains (strLower s) "труб" then .ok (profile_count, tube_count + 1)
      else .ok acc

/-- The (profile, tube) tally over the document's items, classifying each
by the resolved product's group name, falling back to the item name; the
loop aborts with the `AttributeError` of the first name-fallback on a
`None`-named item. -/
def classifyCounts (items : List InvoiceItem)
    (findByArticle findByName : String → Option MSProduct) :
    Except String (Nat × Nat) :=
  items.foldlM (fun acc item =>
    match resolveProduct findByArticle findByName item with
    | some p =>
        (match p.groupName with
         | some g =>
             if g ≠ "" ∧ strContains (strLower g) "профиль" then .ok (acc.1 + 1, acc.2)
             else if g ≠ "" ∧ strContains (strLower g) "труб" then .ok (acc.1, acc.2 + 1)
             else nameTally item.name acc
         | none => nameTally item.name acc)
    | none => nameTally item.name acc) (0, 0)

/-- The target warehouse name picked by
`_determine_main_warehouse_for_order` (its local
`target_warehouse_name`); `.error` when classification raised. -/
def determineWarehouseTargetName (items : List InvoiceItem)
    (findByArticle findByName : String → Option MSProduct) : Except String String :=
  match classifyCounts items findByArticle findByName with
  | .error e => .error e
  | .ok (profile_count, tube_count) =>
      if profile_count > tube_count then .ok "Гатчина"
      else if tube_count > profile_count then .ok "Сестрорецк, ПП"
      else .ok "Гатчина"

/-- The target project name picked by `_determine_main_project_for_order`
(its local `target_project_name`); `.error` when classification raised. -/
def determineProjectTargetName (items : List InvoiceItem)
    (findByArticle findByName : String → Option MSProduct) : Except String String :=
  match classifyCounts items findByArticle findByName with
  | .error e => .error e
  | .ok (profile_count, tube_count) =>
      if profile_count > tube_count then .ok "профили"
      else if tube_count > profile_count then .ok "Трубы"
      else .ok "профили"

/-- A named external entity (store or project row). -/
structure MSEntity where
  name : String
deriving Repr, DecidableEq

/-- `_determine_main_warehouse_for_order`: no warehouses is fatal; an
exception in the classification loop is re-raised as
`MoySkladAPIError("Ошибка определения склада: ...")`; otherwise the first
warehouse whose name contains the target (case-folded), no match fatal. -/
def determine_main_warehouse_for_order (items : List InvoiceItem)
    (findByArticle findByName : String → Option MSProduct)
    (warehouses : List MSEntity) : Except String MSEntity :=
  if warehouses.isEmpty then .error "Склады не найдены в МойСклад"
  else
    match determineWarehouseTargetName items findByArticle findByName with
    | .error e => .error ("Ошибка определения склада: " ++ e)
    | .ok target =>
        match warehouses.find? (fun w =>
            strContains (strLower w.name) (strLower target)) with
        | some w => .ok w
        | none => .error ("Склад '" ++ target ++ "' не найден в МойСклад")

/-- `_determine_main_project_for_order`: `none` when there are no
projects, when the classification loop raised (its catch-all returns
`None`), or when no name matches case-insensitively. -/
def determine_main_project_for_order (items : List InvoiceItem)
    (findByArticle findByName : String → Option MSProduct)
    (projects : List MSEntity) : Option MSEntity :=
  if projects.isEmpty then none
  else
    match determineProjectTargetName items findByArticle findByName with
    | .error _ => none
    | .ok target => projects.find? (fun p => strLower target = strLower p.name)

/-! ## Processors (`src/upd_processor.py`, `src/customer_invoice_processor.py`) -/

/-- `ProcessingResult` from `models.py` (claim-relevant fields). -/
structure ProcessingResult where
  success : Bool
  message : String
  error_code : Option String
deriving Repr, DecidableEq

/-- Outcome of the temp-file save plus parse plus upload pipeline inside
the processor's `try` block.  `saveFailed` is an exception raised before
`temp_zip_path` is assigned (e.g. in `ensure_temp_dir`/`_save_temp_file`);
the other constructors occur after the assignment. -/
inductive PipelineOutcome where
  | saveFailed (msg : String)
  | parsingError (msg : String)
  | apiError (msg : String)
  | unexpectedError (msg : String)
  | success (msg : String)
deriving Repr, DecidableEq

/-- Whether the given pipeline outcome occurs after the temporary file
has been created and its path assigned. -/
def PipelineOutcome.afterSave : PipelineOutcome → Bool
  | .saveFailed _ => false
  | _ => true

/-- `UPDProcessor.process_upd_file`: size check, extension check, then
the pipeline, with every typed error and a catch-all turned into a
`ProcessingResult`.  The second component records whether the `finally`
block invoked `_cleanup_temp_files` (it does iff `temp_zip_path` is set). -/
def process_upd_file (contentLen maxFileSize : Nat) (filename : String)
    (pipeline : PipelineOutcome) : ProcessingResult × Bool :=
  if contentLen > maxFileSize then
    ({ success := false,
       message := "❌ Файл слишком большой. Максимальный размер: " ++
         toString (maxFileSize / 1024 / 1024) ++ " МБ",
       error_code := some "FILE_TOO_LARGE" }, false)
  else if !strEndsWith (strLower filename) ".zip" then
    ({ success := false, message := "❌ Поддерживаются только ZIP архивы с УПД",
       error_code := some "INVALID_FILE_TYPE" }, false)
  else
    match pipeline with
    | .saveFailed m =>
        ({ success := false, message := "❌ Неожиданная ошибка:\n" ++ m,
           error_code := some "UNEXPECTED_ERROR" }, false)
    | .parsingError m =>
        ({ success := false, message := "❌ Ошибка обработки УПД:\n" ++ m,
           error_code := some "PARSING_ERROR" }, true)
    | .apiError m =>
        ({ success := false, message := "❌ Ошибка загрузки в МойСклад:\n" ++ m,
           error_code := some "MOYSKLAD_API_ERROR" }, true)
    | .unexpectedError m =>
        ({ success := false, message := "❌ Неожиданная ошибка:\n" ++ m,
           error_code := some "UNEXPECTED_ERROR" }, true)
    | .success m => ({ success := true, message := m, error_code := none }, true)

/-- `CustomerInvoiceProcessor.process_customer_invoice_file`: identical
structure with the commerce-schema messages. -/
def process_customer_invoice_file (contentLen maxFileSize : Nat) (filename : String)
    (pipeline : PipelineOutcome) : ProcessingResult × Bool :=
  if contentLen > maxFileSize then
    ({ success := false,
       message := "❌ Файл слишком большой. Максимальный размер: " ++
         toString (maxFileSize / 1024 / 1024) ++ " МБ",
       error_code := some "FILE_TOO_LARGE" }, false)
  else if !strEndsWith (strLower filename) ".zip" then
    ({ success := false,
       message := "❌ Поддерживаются только ZIP архивы со счетами покупателю",
       error_code := some "INVALID_FILE_TYPE" }, false)
  else
    match pipeline with
    | .saveFailed m =>
        ({ success := false, message := "❌ Неожиданная ошибка:\n" ++ m,
           error_code := some "UNEXPECTED_ERROR" }, false)
    | .parsingError m =>
        ({ success := false, message := "❌ Ошибка обработки счета покупателю:\n" ++ m,
           error_code := some "PARSING_ERROR" }, true)
    | .apiError m =>
        ({ success := false, message := "❌ Ошибка загрузки в МойСклад:\n" ++ m,
           error_code := some "MOYSKLAD_API_ERROR" }, true)
    | .unexpectedError m =>
        ({ success := false, message := "❌ Неожиданная ошибка:\n" ++ m,
           error_code := some "UNEXPECTED_ERROR" }, true)
    | .success m => ({ success := true, message := m, error_code := none }, true)

/-- The fixed error-code taxonomy of the processors. -/
def errorCodeTaxonomy : List String :=
  ["FILE_TOO_LARGE", "INVALID_FILE_TYPE", "PARSING_ERROR",
   "MOYSKLAD_API_ERROR", "UNEXPECTED_ERROR"]

/-! ## Concrete inputs used by counterexamples and witnesses -/

/-- Concrete item list with 3 tube-classified and 1 profile-classified
names (products unresolved, so classification falls back to the names). -/
def c7items : List InvoiceItem :=
  [ { line_number := 1, name := some "Труба стальная", quantity := 1, price := 0,
      amount_without_vat := 0, vat_rate := none, vat_amount := 0,
      amount_with_vat := 0, article := none },
    { line_number := 2, name := some "труба 40х20", quantity := 1, price := 0,
      amount_without_vat := 0, vat_rate := none, vat_amount := 0,
      amount_with_vat := 0, article := none },
    { line_number := 3, name := some "Трубка медная", quantity := 1, price := 0,
      amount_without_vat := 0, vat_rate := none, vat_amount := 0,
      amount_with_vat := 0, article := none },
    { line_number := 4, name := some "Профиль алюминиевый", quantity := 1, price := 0,
      amount_without_vat := 0, vat_rate := none, vat_amount := 0,
      amount_with_vat := 0, article := none } ]

/-- An invoice item whose name is Python `None` — the commerce table tier
produces these when a cataloged product carries a truthy
`Для1С_Идентификатор` requisite but no `Наименование`. -/
def c7noNameItem : InvoiceItem :=
  { line_number := 1, name := none, quantity := 1, price := 0,
    amount_without_vat := 0, vat_rate := none, vat_amount := 0,
    amount_with_vat := 0, article := none }

/-- A well-formed transfer-schema row. -/
def c4goodRow : Xml :=
  .elem "СведТов"
    [("НаимТов", "Труба"), ("КолТов", "2"), ("ЦенаТов", "10"),
     ("СтТовБезНДС", "20"), ("НалСт", "20%"), ("СтТовУчНал", "24")] none []

/-- A row whose quantity is not a decimal numeral (its parse raises and
the row is skipped). -/
def c4badRow : Xml :=
  .elem "СведТов" [("КолТов", "abc")] none []

/-- A transfer document body whose table holds the bad row before the
good one. -/
def c4tree : Xml :=
  .elem "Файл" [] none [.elem "ТаблСчФакт" [] none [c4badRow, c4goodRow]]

/-- The item parsed from `c4goodRow` at position 2. -/
def c4item : InvoiceItem :=
  { line_number := 2, name := some "Труба", quantity := 2, price := 10,
    amount_without_vat := 24, vat_rate := some "20%", vat_amount := 0,
    amount_with_vat := 24, article := none }

/-- A transfer row omitting `СтТовУчНал` but carrying a VAT leaf of 20. -/
def c3row : Xml :=
  .elem "СведТов" [] none
    [.elem "СумНал" [] none [.elem "СумНал" [] (some "20") []]]

/-- The item the transfer parser builds from `c3row`. -/
def c3item : InvoiceItem :=
  { line_number := 1, name := some "Товар 1", quantity := 1, price := 0,
    amount_without_vat := 0, vat_rate := some "20%", vat_amount := 20,
    amount_with_vat := 0, article := none }

/-- A commerce table row with quantity 2, pre-tax amount 100 and VAT 20
but no tax-inclusive total element. -/
def c3crow : Xml :=
  .elem "СтрокаТабличнойЧасти" [] none
    [.elem "Количество" [] (some "2") [],
     .elem "Сумма" [] (some "100") [],
     .elem "СуммаНДС" [] (some "20") []]

/-- The item the commerce table tier builds from `c3crow`. -/
def c3citem : InvoiceItem :=
  { line_number := 1, name := some "Товар 1", quantity := 2, price := 0,
    amount_without_vat := 100, vat_rate := none, vat_amount := 20,
    amount_with_vat := 100 + 20, article := none }

/-- Transfer document body with a fiscal-info element and a transfer
basis, whose seller element yields no tax id (no legal entity, no sole
proprietor) — the seller parse raises, and the enclosing handler returns
the sentinel document. -/
def c1tree : Xml :=
  .elem "Файл" [] none
    [.elem "СвСчФакт" [("НомерДок", "42")] none [],
     .elem "ОснПер" [("РеквНомерДок", "счет №239")] none [],
     .elem "СвПрод" [] none [],
     .elem "ГрузПолуч" [] none
       [.elem "ИдСв" [] none
         [.elem "СвЮЛУч" [("НаимОрг", "ООО Purchaser"), ("ИННЮЛ", "1234567890")] none []]]]

/-- A commerce product element carrying no pricing: no truthy price,
quantity or sum text and no tax block. -/
def noPricing (p : Xml) : Prop :=
  pyTruthy (bp_get_text (p.findChild "ЦенаЗаЕдиницу")) = false ∧
  pyTruthy (bp_get_text (p.findChild "Количество")) = false ∧
  pyTruthy (bp_get_text (p.findChild "Сумма")) = false ∧
  (p.findChild "Налоги").isNone = true

/-- A cataloged product with a name but no pricing data. -/
def c2product (n : String) : Xml :=
  .elem "Товар" [] none [.elem "Наименование" [] (some n) []]

/-- A commerce document element with no tabular section. -/
def c2doc : Xml := .elem "Документ" [] none [.elem "Номер" [] (some "239") []]

/-- A commerce tree with 3 cataloged products and no tabular section. -/
def c2tree : Xml :=
  .elem "КоммерческаяИнформация" [] none
    [c2doc, c2product "Труба A", c2product "Труба B", c2product "Профиль C"]

/-- Decidability of the no-pricing side condition (used by the witness). -/
instance noPricingDecidable (p : Xml) : Decidable (noPricing p) := by
  unfold noPricing
  infer_instance

/-- A transfer item carrying article "A". -/
def c5item : InvoiceItem :=
  { line_number := 1, name := some "Труба", quantity := 2, price := 10,
    amount_without_vat := 24, vat_rate := some "20%", vat_amount := 4,
    amount_with_vat := 24, article := some "A" }

/-- A product catalog resolving article "A". -/
def c5findA (a : String) : Option MSProduct :=
  if a = "A" then some { meta := "m1", name := "Труба", groupName := none }
  else none

/-! ## Claim theorems -/

/-- Helper: `filterMap` over a list where the function always succeeds
keeps the length. -/
theorem filterMap_length_all_some {α β : Type} (f : α → Option β) :
    ∀ l : List α, (∀ a ∈ l, (f a).isSome = true) →
      (l.filterMap f).length = l.length := by
  intro l
  induction l with
  | nil => intro _; rfl
  | cons a as ih =>
      intro h
      have ha := h a (by simp)
      rcases hfa : f a with _ | b
      · rw [hfa] at ha
        simp at ha
      · simp [hfa, ih (fun x hx => h x (by simp [hx]))]

/-- Helper: when every item resolves, the position loop of
`_create_positions_from_upd` appends exactly one position per item and
reports nothing missing. -/
theorem createPositions_foldl_resolved
    (findByArticle findByName : String → Option MSProduct)
    (invoicePositions : List (String × Int))
    (updPriceKopecksOf : InvoiceItem → Int) :
    ∀ (items : List InvoiceItem) (acc : List MSPosition) (accm : List String),
      (∀ it ∈ items, (resolveProduct findByArticle findByName it).isSome = true) →
      items.foldl (createPositionsStep findByArticle findByName invoicePositions
        updPriceKopecksOf) (acc, accm) =
        (acc ++ items.filterMap (resolvedPosition findByArticle findByName
          invoicePositions updPriceKopecksOf), accm) := by
  intro items
  induction items with
  | nil =>
      intro acc accm _
      simp
  | cons it its ih =>
      intro acc accm h
      have hs := h it (by simp)
      rcases hres : resolveProduct findByArticle findByName it with _ | p
      · rw [hres] at hs
        simp at hs
      · simp only [List.foldl_cons]
        rw [show createPositionsStep findByArticle findByName invoicePositions
            updPriceKopecksOf (acc, accm) it =
            (acc ++ [positionOfResolvedItem invoicePositions updPriceKopecksOf it p],
              accm) from by
          simp [createPositionsStep, hres, positionOfResolvedItem]]
        rw [ih _ _ (fun x hx => h x (by simp [hx]))]
        simp [resolvedPosition, hres]

/-- C5: (1) the per-item price decision equals the spec-side lookup — the
previously issued invoice's stored price (keyed by article first, then by
name) whenever it exists and is strictly positive, else the freshly
parsed price in kopecks (`int(float(price) * 100)`, abstracted as
`updPriceKopecks`); and (2) when every line item resolves, the positions
sent to the external service are exactly one per item, each carrying
that reconciled price (`resolvedPosition` wraps `positionPriceKopecks`). -/
theorem c5_price_preference :
    (∀ (article : Option String) (name : String) (updPriceKopecks : Int)
        (invoicePositions : List (String × Int)),
      positionPriceKopecks article name updPriceKopecks invoicePositions =
        (match storedInvoicePrice article name invoicePositions with
         | some p => if p > 0 then p else updPriceKopecks
         | none => updPriceKopecks)) ∧
    (∀ (items : List InvoiceItem)
        (findByArticle findByName : String → Option MSProduct)
        (invoicePositions : List (String × Int))
        (updPriceKopecksOf : InvoiceItem → Int)
        (totalWithVat : ℚ) (totalKopecks : Int) (anyService : Option String),
      (∀ it ∈ items, (resolveProduct findByArticle findByName it).isSome = true) →
      items.isEmpty = false →
      createPositionsFromUpd items findByArticle findByName invoicePositions
          updPriceKopecksOf totalWithVat totalKopecks anyService =
        .ok (items.filterMap (resolvedPosition findByArticle findByName
          invoicePositions updPriceKopecksOf))) := by
  constructor
  · intro article name updPriceKopecks invoicePositions
    have hname : positionPriceByName name updPriceKopecks invoicePositions =
        (match List.lookup ("name:" ++ name) invoicePositions with
         | some p => if p > 0 then p else updPriceKopecks
         | none => updPriceKopecks) := by
      unfold positionPriceByName
      rfl
    unfold positionPriceKopecks storedInvoicePrice
    cases article with
    | none => exact hname
    | some a =>
        by_cases ha : a = ""
        · simpa [ha] using hname
        · simp [ha]
          cases h : List.lookup ("article:" ++ a) invoicePositions with
          | none => simpa [h] using hname
          | some p => simp [h]
  · intro items fa fn pos kop tw tk svc hres hne
    unfold createPositionsFromUpd
    rw [createPositions_foldl_resolved fa fn pos kop items [] [] hres]
    have hlen : (items.filterMap (resolvedPosition fa fn pos kop)).length =
        items.length := by
      apply filterMap_length_all_some
      intro it hit
      have := hres it hit
      rcases hr : resolveProduct fa fn it with _ | p
      · rw [hr] at this
        simp at this
      · simp [resolvedPosition, hr]
    have hempty : (items.filterMap (resolvedPosition fa fn pos kop)).isEmpty
        = false := by
      cases hfm : items.filterMap (resolvedPosition fa fn pos kop) with
      | nil =>
          rw [hfm] at hlen
          cases hitems : items with
          | nil =>
              rw [hitems] at hne
              simp at hne
          | cons a l =>
              rw [hitems] at hlen
              simp at hlen
      | cons b m => rfl
    simp [hempty]

/-- C6: buyer-counterparty creation classifies a 12-digit tax id as a
sole proprietor with no sub-division code, and a 10-digit tax id as a
legal entity whose sub-division code is emitted iff one is present (on
the parsed buyer or from the enrichment lookup). -/
theorem c6_counterparty_classification (buyer : Organization)
    (enhanced : Option EnhancedData) :
    (buyer.inn.length = 12 →
      (counterpartyCreateData buyer enhanced).companyType = "individual" ∧
      (counterpartyCreateData buyer enhanced).kpp = none) ∧
    (buyer.inn.length = 10 →
      (counterpartyCreateData buyer enhanced).companyType = "legal" ∧
      ((counterpartyCreateData buyer enhanced).kpp ≠ none ↔
        (pyTruthy buyer.kpp = true ∨ ∃ e, enhanced = some e ∧ e.kpp ≠ ""))) := by
  unfold counterpartyCreateData
  constructor
  · intro h12
    simp [h12]
  · intro h10
    have hni : ¬ buyer.inn.length = 12 := by omega
    refine ⟨by simp [hni], ?_⟩
    by_cases hk : pyTruthy buyer.kpp = true
    · have : buyer.kpp ≠ none := by
        cases hbk : buyer.kpp <;> simp [pyTruthy, hbk] at hk ⊢
      simp [hni, hk]
      intro hcon
      exact absurd hcon this
    · cases enhanced with
      | none => simp [hni, hk]
      | some e =>
          by_cases he : e.kpp = "" <;> simp [hni, hk, he]

/-- C6 witness: a 12-digit buyer is created as `individual` without kpp;
a 10-digit buyer is created as `legal`. -/
theorem c6_witness :
    ((counterpartyCreateData { name := "ИП Иванов", inn := "781490187318", kpp := none } none).companyType
        = "individual" ∧
     (counterpartyCreateData { name := "ИП Иванов", inn := "781490187318", kpp := none } none).kpp = none) ∧
    (counterpartyCreateData { name := "ООО Ромашка", inn := "1234567890", kpp := some "123456789" } none).companyType
        = "legal" := by
  refine ⟨(c6_counterparty_classification _ none).1 (by decide), ?_⟩
  exact ((c6_counterparty_classification _ none).2 (by decide)).1

/-- C9 counterexample: an element whose text is whitespace-only yields
the empty string, not `None` — the helper does not map blank
(whitespace-only) text to `None` as the claim states. -/
theorem c9_counterexample :
    safe_get_text (some (Xml.elem "Номер" [] (some "   ") [])) = some "" ∧
    safe_get_text (some (Xml.elem "Номер" [] (some "   ") [])) ≠ none := by
  refine ⟨rfl, by decide⟩

/-- C9 (amended): the safe text-extraction helpers (`safe_get_text` and
the identical `_get_text`) never throw (they are total), return `None`
exactly when the element is absent or its text is absent or the empty
string, and otherwise return the text stripped — so whitespace-only text
yields `""`, not `None`. -/
theorem c9_amended (e? : Option Xml) :
    bp_get_text e? = safe_get_text e? ∧
    (e? = none → safe_get_text e? = none) ∧
    (∀ e, e? = some e → e.text = none → safe_get_text e? = none) ∧
    (∀ e, e? = some e → e.text = some "" → safe_get_text e? = none) ∧
    (∀ e t, e? = some e → e.text = some t → t ≠ "" →
      safe_get_text e? = some (pyStrip t)) := by
  refine ⟨?_, ?_, ?_, ?_, ?_⟩
  · cases e? with
    | none => rfl
    | some e => cases he : e.text <;> simp [bp_get_text, safe_get_text, he]
  · intro h; subst h; rfl
  · intro e h ht; subst h; simp [safe_get_text, ht]
  · intro e h ht; subst h; simp [safe_get_text, ht]
  · intro e t h ht hne; subst h; simp [safe_get_text, ht, hne]

/-- C9 witness: a concrete element with padded text strips to its core. -/
theorem c9_witness :
    safe_get_text (some (Xml.elem "Номер" [] (some " 239 ") [])) = some (pyStrip " 239 ") :=
  (c9_amended (some (Xml.elem "Номер" [] (some " 239 ") []))).2.2.2.2
    (Xml.elem "Номер" [] (some " 239 ") []) " 239 " rfl rfl (by decide)

/-- C8 counterexample: on a wrong-extension input the processor returns a
failure result *without* invoking temporary-file cleanup (no temp file was
created yet), refuting "cleanup is invoked on every exit path". -/
theorem c8_counterexample :
    (process_upd_file 10 10485760 "doc.txt" (.success "ok")).2 = false ∧
    (process_upd_file 10 10485760 "doc.txt" (.success "ok")).1.success = false ∧
    (process_upd_file 10 10485760 "doc.txt" (.success "ok")).1.error_code
      = some "INVALID_FILE_TYPE" := by
  refine ⟨rfl, rfl, rfl⟩

/-- C8 (amended): both processors always return a `ProcessingResult`
(the embedded functions are total, mirroring the catch-all handler); every
failure carries an error code from the fixed taxonomy; success carries
none; and cleanup is invoked exactly on the exit paths reached after a
temporary file has been created — the early size/extension rejections
precede temp-file creation and invoke no cleanup. -/
theorem c8_amended (contentLen maxFileSize : Nat) (filename : String)
    (pipeline : PipelineOutcome) :
    ((process_upd_file contentLen maxFileSize filename pipeline).1.success = false →
      ∃ c, (process_upd_file contentLen maxFileSize filename pipeline).1.error_code = some c ∧
        c ∈ errorCodeTaxonomy) ∧
    ((process_upd_file contentLen maxFileSize filename pipeline).1.success = true →
      (process_upd_file contentLen maxFileSize filename pipeline).1.error_code = none) ∧
    ((process_upd_file contentLen maxFileSize filename pipeline).2 = true ↔
      (contentLen ≤ maxFileSize ∧ strEndsWith (strLower filename) ".zip" = true ∧
        pipeline.afterSave = true)) ∧
    ((process_customer_invoice_file contentLen maxFileSize filename pipeline).1.success = false →
      ∃ c, (process_customer_invoice_file contentLen maxFileSize filename pipeline).1.error_code = some c ∧
        c ∈ errorCodeTaxonomy) ∧
    ((process_customer_invoice_file contentLen maxFileSize filename pipeline).2 = true ↔
      (contentLen ≤ maxFileSize ∧ strEndsWith (strLower filename) ".zip" = true ∧
        pipeline.afterSave = true)) := by
  unfold process_upd_file process_customer_invoice_file
  by_cases hsz : contentLen > maxFileSize
  · simp [hsz, errorCodeTaxonomy]
    try omega
  · by_cases hzip : strEndsWith (strLower filename) ".zip" = true
    · cases pipeline <;>
        simp [hsz, hzip, errorCodeTaxonomy, PipelineOutcome.afterSave] <;> try omega
    · simp [hsz, hzip, errorCodeTaxonomy]

/-- C8 witness: a parse failure on a valid-looking archive yields a
taxonomy error code and does invoke cleanup. -/
theorem c8_witness :
    (∃ c, (process_upd_file 0 10 "a.zip" (.parsingError "x")).1.error_code = some c ∧
      c ∈ errorCodeTaxonomy) ∧
    ((process_upd_file 0 10 "a.zip" (.parsingError "x")).2 = true) := by
  refine ⟨(c8_amended 0 10 "a.zip" (.parsingError "x")).1 (by decide), ?_⟩
  exact (c8_amended 0 10 "a.zip" (.parsingError "x")).2.2.1.mpr (by decide)

/-- C7 counterexample: on a document whose sole item has no name (so
nothing is classified — the lookup misses and the name fallback hits
`None`), the program does not select the profile bucket: warehouse
determination fails with the wrapped `AttributeError` even though the
"Гатчина" warehouse exists, and project determination returns no project
even though the "профили" project exists. -/
theorem c7_counterexample :
    determine_main_warehouse_for_order [c7noNameItem] (fun _ => none) (fun _ => none)
        [{ name := "Гатчина" }] =
      .error "Ошибка определения склада: 'NoneType' object has no attribute 'lower'" ∧
    determine_main_project_for_order [c7noNameItem] (fun _ => none) (fun _ => none)
        [{ name := "профили" }] = none := by
  constructor
  · rfl
  · rfl

/-- C7 (amended): when the classification tally over the document's items
completes, a strict tube majority selects the tube bucket (warehouse
"Сестрорецк, ПП", project "Трубы") and a strict profile majority, a tie,
or no classified items selects the profile bucket (warehouse "Гатчина",
project "профили"); when the tally raises — an item with no name reaches
the name fallback — no bucket is selected: warehouse determination fails
with the wrapped error and project determination returns no project. -/
theorem c7_bucket_majority (items : List InvoiceItem)
    (findByArticle findByName : String → Option MSProduct) :
    (∀ pc tc, classifyCounts items findByArticle findByName = .ok (pc, tc) →
      ((tc > pc →
          determineWarehouseTargetName items findByArticle findByName
            = .ok "Сестрорецк, ПП" ∧
          determineProjectTargetName items findByArticle findByName
            = .ok "Трубы") ∧
       (tc ≤ pc →
          determineWarehouseTargetName items findByArticle findByName
            = .ok "Гатчина" ∧
          determineProjectTargetName items findByArticle findByName
            = .ok "профили"))) ∧
    (∀ e, classifyCounts items findByArticle findByName = .error e →
      (∀ warehouses : List MSEntity, warehouses.isEmpty = false →
        determine_main_warehouse_for_order items findByArticle findByName
            warehouses =
          .error ("Ошибка определения склада: " ++ e)) ∧
      (∀ projects : List MSEntity, projects.isEmpty = false →
        determine_main_project_for_order items findByArticle findByName
          projects = none)) := by
  constructor
  · intro pc tc hc
    constructor
    · intro h
      have h1 : ¬ pc > tc := by omega
      constructor <;>
        simp [determineWarehouseTargetName, determineProjectTargetName, hc, h1, h]
    · intro h
      by_cases h1 : pc > tc
      · constructor <;>
          simp [determineWarehouseTargetName, determineProjectTargetName, hc, h1]
      · have h2 : ¬ tc > pc := by omega
        constructor <;>
          simp [determineWarehouseTargetName, determineProjectTargetName, hc, h1, h2]
  · intro e hc
    constructor
    · intro warehouses hw
      simp [determine_main_warehouse_for_order, determineWarehouseTargetName, hc, hw]
    · intro projects hp
      simp [determine_main_project_for_order, determineProjectTargetName, hc, hp]

/-- C7 witness: 3 tube / 1 profile named items (tally succeeds as
`(1, 3)`) select the tube bucket. -/
theorem c7_witness :
    determineWarehouseTargetName c7items (fun _ => none) (fun _ => none)
      = .ok "Сестрорецк, ПП" ∧
    determineProjectTargetName c7items (fun _ => none) (fun _ => none)
      = .ok "Трубы" :=
  ((c7_bucket_majority c7items (fun _ => none) (fun _ => none)).1 1 3
    (by rfl)).1 (by decide)

/-- C10: with zero canonical line items, position construction does not
fail: it yields exactly one position on the first available service with
quantity 1, VAT 18 and price `total_with_vat × 100` kopecks when the
total is positive, else 100000 kopecks; an error arises only when no
service exists. -/
theorem c10_empty_items_fallback
    (findByArticle findByName : String → Option MSProduct)
    (invoicePositions : List (String × Int)) (updPriceKopecksOf : InvoiceItem → Int)
    (totalWithVat : ℚ) (totalKopecks : Int) (anyService : Option String) :
    (∀ meta, anyService = some meta →
      createPositionsFromUpd [] findByArticle findByName invoicePositions
          updPriceKopecksOf totalWithVat totalKopecks anyService =
        .ok [{ quantity := 1,
               price := if totalWithVat > 0 then totalKopecks else 100000,
               assortmentMeta := meta, vat := 18 }]) ∧
    (anyService = none →
      createPositionsFromUpd [] findByArticle findByName invoicePositions
          updPriceKopecksOf totalWithVat totalKopecks anyService =
        .error ("В МойСклад нет доступных услуг для создания позиции документа.\n" ++
          "Создайте хотя бы одну услугу в МойСклад и повторите попытку.")) := by
  constructor
  · intro meta h
    subst h
    rfl
  · intro h
    subst h
    rfl

/-- C10 witness: a positive total of 3000 with a service present yields
one position priced at the given kopeck total. -/
theorem c10_witness :
    createPositionsFromUpd [] (fun _ => none) (fun _ => none) [] (fun _ => 0)
        3000 300000 (some "svc-meta") =
      .ok [{ quantity := 1, price := if (3000 : ℚ) > 0 then 300000 else 100000,
             assortmentMeta := "svc-meta", vat := 18 }] :=
  (c10_empty_items_fallback (fun _ => none) (fun _ => none) [] (fun _ => 0)
    3000 300000 (some "svc-meta")).1 "svc-meta" rfl

/-- Helper: an element fetched by index appears (with its 1-shifted
position) in the enumeration used by the item parsers. -/
theorem enumFrom_get?_mem {α : Type} :
    ∀ (l : List α) (k j : Nat) (a : α),
      l[j]? = some a → (k + j, a) ∈ List.enumFrom k l := by
  intro l
  induction l with
  | nil => intro k j a h; simp at h
  | cons x xs ih =>
      intro k j a h
      cases j with
      | zero =>
          simp at h
          subst h
          simp [List.enumFrom]
      | succ n =>
          simp at h
          have hm := ih (k + 1) n a h
          simp only [List.enumFrom, List.mem_cons]
          right
          have : k + (n + 1) = (k + 1) + n := by omega
          rw [this]
          exact hm

/-- Helper: a successfully parsed transfer-schema row stores the parsed
`СтТовУчНал` value in both `amount_without_vat` and `amount_with_vat`. -/
theorem parse_invoice_row_fields (i : Nat) (r : Xml) (item : InvoiceItem)
    (h : parse_invoice_row i r = some item) :
    parseDecimal (pyAttrOr r "СтТовУчНал" "0") = some item.amount_without_vat ∧
    item.amount_without_vat = item.amount_with_vat := by
  simp only [parse_invoice_row] at h
  split at h
  next v q p a t hv hq hp ha ht =>
      cases h
      exact ⟨ht, rfl⟩
  next => exact absurd h (by simp)

/-- C4: every transfer-schema tabular row that parses successfully yields
an item whose `amount_without_vat` holds the row's tax-inclusive total
(`СтТовУчНал`, equal to `amount_with_vat`), and the item is present in
the parsed list regardless of other rows failing (failed rows are
skipped, not fatal). -/
theorem c4_authoritative_total (tree table : Xml) (j : Nat) (r : Xml)
    (item : InvoiceItem)
    (htab : tree.findDesc "ТаблСчФакт" = some table)
    (hrow : (table.findAllChildren "СведТов")[j]? = some r)
    (hparse : parse_invoice_row (j + 1) r = some item) :
    item ∈ parse_invoice_items tree ∧
    parseDecimal (pyAttrOr r "СтТовУчНал" "0") = some item.amount_without_vat ∧
    item.amount_without_vat = item.amount_with_vat := by
  obtain ⟨h1, h2⟩ := parse_invoice_row_fields (j + 1) r item hparse
  refine ⟨?_, h1, h2⟩
  unfold parse_invoice_items
  rw [htab]
  apply List.mem_filterMap.mpr
  refine ⟨(1 + j, r), enumFrom_get?_mem _ 1 j r hrow, ?_⟩
  simpa [Nat.add_comm] using hparse

/-- C4 witness: the good row parses, lands in the item list even though
the preceding row fails, and stores the tax-inclusive total 24 in
`amount_without_vat`. -/
theorem c4_witness :
    c4item ∈ parse_invoice_items c4tree ∧
    parseDecimal (pyAttrOr c4goodRow "СтТовУчНал" "0") = some c4item.amount_without_vat ∧
    c4item.amount_without_vat = c4item.amount_with_vat := by
  have h := c4_authoritative_total c4tree (.elem "ТаблСчФакт" [] none [c4badRow, c4goodRow])
    1 c4goodRow c4item rfl rfl ?_
  · exact h
  · rfl

/-- `Decimal(s) if s else Decimal(d)` yields the default when the
extracted text is falsy. -/
theorem decOrDefault_falsy (s : Option String) (d : ℚ) (h : pyTruthy s = false) :
    decOrDefault s d = some d := by
  cases s with
  | none => rfl
  | some t =>
      simp [pyTruthy] at h
      simp [decOrDefault, h]

/-- C3 counterexample: a transfer-schema row whose source XML omits the
tax-inclusive total but carries a VAT amount of 20 parses successfully
into an item with `amount_with_vat = 0` and `vat_amount = 20`, so
`amount_with_vat ≠ amount_without_vat + vat_amount`. -/
theorem c3_counterexample :
    parse_invoice_row 1 c3row = some c3item ∧
    c3item.amount_with_vat ≠ c3item.amount_without_vat + c3item.vat_amount := by
  constructor
  · rfl
  · norm_num [c3item]

/-- C3 (amended): for line items whose source omits the tax-inclusive
total, the commerce-schema parser does compute
`amount_with_vat = amount_without_vat + vat_amount` (in both its tiers),
but the transfer-schema parser instead defaults the total attribute to
`"0"` and stores it in both amount fields, so there
`amount_with_vat = amount_without_vat = 0` and the claimed identity holds
only when the parsed VAT amount is zero. -/
theorem c3_amended :
    (∀ (products : List (String × (Option String × Option String))) (i : Nat)
        (row : Xml) (item : InvoiceItem),
      pyTruthy (bp_get_text (row.findChild "Всего")) = false →
      parseCommerceRow products i row = some item →
      item.amount_with_vat = item.amount_without_vat + item.vat_amount) ∧
    (∀ (i : Nat) (p : Xml) (item : InvoiceItem),
      parseCommerceProduct i p = some item →
      item.amount_with_vat = item.amount_without_vat + item.vat_amount) ∧
    (∀ (i : Nat) (r : Xml) (item : InvoiceItem),
      pyTruthy (r.get "СтТовУчНал") = false →
      parse_invoice_row i r = some item →
      item.amount_with_vat = 0 ∧ item.amount_without_vat = 0) := by
  refine ⟨?_, ?_, ?_⟩
  · intro products i row item hfal h
    simp only [parseCommerceRow] at h
    split at h
    next q p a v hq hp ha hv =>
        cases hts : bp_get_text (row.findChild "Всего") with
        | none =>
            rw [hts] at h
            simp at h
            cases h
            rfl
        | some ts =>
            rw [hts] at hfal
            simp [pyTruthy] at hfal
            rw [hts] at h
            simp [hfal] at h
            cases h
            rfl
    next => exact absurd h (by simp)
  · intro i p item h
    simp only [parseCommerceProduct] at h
    split at h
    next v q pr a0 hv hq hp ha =>
        cases h
        rfl
    next => exact absurd h (by simp)
  · intro i r item hfal h
    simp only [parse_invoice_row] at h
    split at h
    next v q p a t hv hq hp ha ht =>
        have h0 : pyAttrOr r "СтТовУчНал" "0" = "0" := by
          unfold pyAttrOr
          cases hg : r.get "СтТовУчНал" with
          | none => rfl
          | some s =>
              rw [hg] at hfal
              simp [pyTruthy] at hfal
              simp [pyOr, hfal]
        rw [h0] at ht
        have ht0 : t = 0 := by
          have : parseDecimal "0" = some 0 := by decide
          rw [this] at ht
          exact (Option.some.injEq _ _).mp ht.symm ▸ rfl
        cases h
        constructor
        · exact ht0
        · exact ht0
    next => exact absurd h (by simp)

/-- C3 witness: a commerce row without the tax-inclusive total gets
`amount_with_vat = amount_without_vat + vat_amount`. -/
theorem c3_witness :
    c3citem.amount_with_vat = c3citem.amount_without_vat + c3citem.vat_amount :=
  c3_amended.1 [] 1 c3crow c3citem rfl rfl

/-- C1 counterexample: for a transfer-schema body in which no tax id can
be derived for the seller, the body parse does *not* fail — the raised
role-naming error is swallowed by the catch-all of
`_parse_full_upd_content`, which returns the sentinel canonical document. -/
theorem c1_counterexample :
    parse_seller_info c1tree =
      .error "Не удалось определить ИНН продавца в УПД документе. Проверьте корректность документа." ∧
    parse_full_upd_content c1tree = basicUpdContent := by
  constructor
  · rfl
  · rfl

/-- C1 (amended): when no tax id is derivable for the seller (or buyer),
the organization-resolution step raises `UPDParsingError` with a message
naming the role ("продавца"/"покупателя"), but `_parse_full_upd_content`
catches every exception and returns the sentinel canonical document, so
body parsing still returns a canonical document instead of failing. -/
theorem c1_amended (tree : Xml) (m : String) :
    (parse_seller_info tree = .error m →
      strContains m "продавца" = true ∧
      parse_full_upd_content tree = basicUpdContent) ∧
    (parse_buyer_info tree = .error m →
      strContains m "покупателя" = true ∧
      parse_full_upd_content tree = basicUpdContent) := by
  have hfull_s : parse_seller_info tree = .error m →
      parse_full_upd_content tree = basicUpdContent := by
    intro h
    unfold parse_full_upd_content parse_full_upd_content_inner
    cases hh : parse_header tree with
    | error e => simp
    | ok trip =>
        rcases trip with ⟨num, date, req⟩
        simp [h]
  have hfull_b : parse_buyer_info tree = .error m →
      parse_full_upd_content tree = basicUpdContent := by
    intro h
    unfold parse_full_upd_content parse_full_upd_content_inner
    cases hh : parse_header tree with
    | error e => simp
    | ok trip =>
        rcases trip with ⟨num, date, req⟩
        cases hs : parse_seller_info tree with
        | error e => simp [hs]
        | ok s => simp [hs, h]
  constructor
  · intro h
    refine ⟨?_, hfull_s h⟩
    unfold parse_seller_info at h
    split at h
    · cases h
      decide
    · split at h
      · exact absurd h (by simp)
      · cases h
        decide
  · intro h
    refine ⟨?_, hfull_b h⟩
    unfold parse_buyer_info at h
    split at h
    · cases h
      decide
    · split at h
      · exact absurd h (by simp)
      · cases h
        decide

/-- C1 witness: the seller-unresolvable document `c1tree` produces the
role-naming message and the sentinel canonical document. -/
theorem c1_witness :
    strContains "Не удалось определить ИНН продавца в УПД документе. Проверьте корректность документа." "продавца" = true ∧
    parse_full_upd_content c1tree = basicUpdContent :=
  (c1_amended c1tree _).1 rfl

/-- Helper: a no-pricing product element synthesizes an item with all
monetary fields zero, quantity 1 and the assumed `20%` tag. -/
theorem parseCommerceProduct_noPricing (i : Nat) (p : Xml) (h : noPricing p) :
    ∃ it, parseCommerceProduct i p = some it ∧ it.quantity = 1 ∧ it.price = 0 ∧
      it.vat_amount = 0 ∧ it.amount_without_vat = 0 ∧ it.amount_with_vat = 0 ∧
      it.vat_rate = some "20%" := by
  obtain ⟨h1, h2, h3, h4⟩ := h
  have h4' : p.findChild "Налоги" = none := Option.isNone_iff_eq_none.mp h4
  have heq : parseCommerceProduct i p =
      some { line_number := i,
             name := some (pyOr (bp_get_text (p.findChild "Наименование"))
               ("Товар " ++ toString i)),
             quantity := 1, price := 0, amount_without_vat := 0,
             vat_rate := some "20%", vat_amount := 0, amount_with_vat := 0,
             article := bp_get_text (p.findChild "Артикул") } := by
    simp only [parseCommerceProduct, h4', Option.bind, decOrDefault_falsy _ _ h1,
      decOrDefault_falsy _ _ h2, decOrDefault_falsy _ _ h3]
    norm_num
  exact ⟨_, heq, rfl, rfl, rfl, rfl, rfl, rfl⟩

/-- Helper: the tier-b loop over no-pricing products succeeds and yields
one zero-priced item per product. -/
theorem mapM_products_noPricing (ps : List Xml) :
    ∀ (k : Nat), (∀ p ∈ ps, noPricing p) →
    ∃ l, (List.enumFrom k ps).mapM (fun pr => parseCommerceProduct pr.1 pr.2) = some l ∧
      l.length = ps.length ∧
      ∀ it ∈ l, it.quantity = 1 ∧ it.price = 0 ∧ it.vat_amount = 0 ∧
        it.amount_without_vat = 0 ∧ it.amount_with_vat = 0 ∧
        it.vat_rate = some "20%" := by
  induction ps with
  | nil =>
      intro k h
      exact ⟨[], rfl, rfl, by simp⟩
  | cons p ps ih =>
      intro k h
      obtain ⟨it, hit, hq, hp, hv, ha, haw, hr⟩ :=
        parseCommerceProduct_noPricing k p (h p (by simp))
      obtain ⟨l, hl, hlen, hall⟩ := ih (k + 1) (fun q hq' => h q (by simp [hq']))
      refine ⟨it :: l, ?_, by simp [hlen], ?_⟩
      · simp only [List.enumFrom, List.mapM_cons, hit, hl]
        rfl
      · intro x hx
        rcases List.mem_cons.mp hx with hx | hx
        · subst hx
          exact ⟨hq, hp, hv, ha, haw, hr⟩
        · exact hall x hx

/-- C2 (amended): for a commerce document without a tabular section whose
product elements carry no pricing, the parser synthesizes one item per
cataloged product with quantity 1, the assumed `20%` tag, and *zero*
price, VAT and amounts — the document total is received but never used,
so no even split over the total takes place. -/
theorem c2_amended (doc tree : Xml) (total : ℚ)
    (htab : (doc.findChild "ТабличнаяЧасть").isNone = true)
    (hnp : ∀ p ∈ tree.findAllDesc "Товар", noPricing p) :
    ∃ l, ci_parse_items doc tree total = some l ∧
      l.length = (tree.findAllDesc "Товар").length ∧
      ∀ it ∈ l, it.quantity = 1 ∧ it.price = 0 ∧ it.vat_amount = 0 ∧
        it.amount_without_vat = 0 ∧ it.amount_with_vat = 0 ∧
        it.vat_rate = some "20%" := by
  have htab' : doc.findChild "ТабличнаяЧасть" = none :=
    Option.isNone_iff_eq_none.mp htab
  by_cases hpe : (tree.findAllDesc "Товар").isEmpty
  · have hps : tree.findAllDesc "Товар" = [] := by
      cases hh : tree.findAllDesc "Товар" with
      | nil => rfl
      | cons a l => rw [hh] at hpe; simp [List.isEmpty] at hpe
    refine ⟨[], ?_, by simp [hps], by simp⟩
    unfold ci_parse_items
    rw [htab', hps]
    rfl
  · obtain ⟨l, hl, hlen, hall⟩ :=
      mapM_products_noPricing (tree.findAllDesc "Товар") 1 hnp
    refine ⟨l, ?_, hlen, hall⟩
    unfold ci_parse_items
    rw [htab']
    simp only [hpe]
    simp only [List.isEmpty_nil, Bool.not_false, Bool.true_and, if_true, Bool.and_self]
    exact hl

/-- C2 counterexample: 3 cataloged products without pricing and a
document total of 3000.00 yield 3 items with price 0 and VAT 0 — not the
claimed even split of 1000.00 / 200.00 per item. -/
theorem c2_counterexample :
    (ci_parse_items c2doc c2tree 3000).map (fun l => l.map InvoiceItem.price)
      = some [0, 0, 0] ∧
    (ci_parse_items c2doc c2tree 3000).map (fun l => l.map InvoiceItem.vat_amount)
      = some [0, 0, 0] ∧
    (ci_parse_items c2doc c2tree 3000).map (fun l => l.map InvoiceItem.price)
      ≠ some [1000, 1000, 1000] := by
  refine ⟨rfl, rfl, ?_⟩
  have h0 : (ci_parse_items c2doc c2tree 3000).map (fun l => l.map InvoiceItem.price)
      = some [0, 0, 0] := rfl
  rw [h0]
  intro hcon
  have hlist := (Option.some.injEq _ _).mp hcon
  norm_num at hlist

/-- C2 witness: the amended statement at the concrete 3-product /
total-3000 scenario. -/
theorem c2_witness :
    ∃ l, ci_parse_items c2doc c2tree 3000 = some l ∧
      l.length = (c2tree.findAllDesc "Товар").length ∧
      ∀ it ∈ l, it.quantity = 1 ∧ it.price = 0 ∧ it.vat_amount = 0 ∧
        it.amount_without_vat = 0 ∧ it.amount_with_vat = 0 ∧
        it.vat_rate = some "20%" :=
  c2_amended c2doc c2tree 3000 rfl (by decide)

/-- C5 witness: a single resolved item yields exactly its reconciled
position. -/
theorem c5_witness :
    createPositionsFromUpd [c5item] c5findA (fun _ => none) [("article:A", 5000)]
        (fun _ => 999) 0 0 none =
      .ok ([c5item].filterMap (resolvedPosition c5findA (fun _ => none)
        [("article:A", 5000)] (fun _ => 999))) :=
  c5_price_preference.2 [c5item] c5findA (fun _ => none) [("article:A", 5000)]
    (fun _ => 999) 0 0 none (by decide) (by decide)
